import Mathlib

/-!
Verification of the `clingox.tefoli` foreign-function bridge (`Theory` class).

The Python module wraps a C "theory" extension library loaded via ctypes.
We give a shallow embedding of its components:

* the error translator `__handle_error` / `__skip_error`,
* the tagged-union value decoder `get_value`,
* the binding table built in `__init__` with its per-function
  error-checking policy (`__fun`'s `error` flag),
* the construction control flow of `__init__` and teardown `__del__`,
* the `lookup_symbol` wrapper,
* the rewrite trampoline `py_add` and `rewrite_statement`,
* the assignment iterator `assignment`, together with the trace of
  extension calls it issues.

The native extension is modelled as an oracle: its responses (booleans,
out-parameter values, the diagnostic channel's last message/code) are
parameters of the embedded functions.
-/

namespace Tefoli

/-- Exceptions raised by the bridge.  `runtimeError` stands for Python's
`RuntimeError`, `memoryError` for `MemoryError`, `attributeError` for the
`AttributeError` ctypes raises on a missing exported symbol. -/
inductive PyError where
  | runtimeError (msg : String)
  | memoryError (msg : String)
  | attributeError (name : String)
  deriving Repr, DecidableEq

/-- Embedding of `Theory.__handle_error(success, func, arguments)`.
The diagnostic channel (`_error_message()`, `_error_code()`) is passed in as
the `msg`/`code` oracle values.  Returns `.ok ()` when `success` holds and
otherwise the raised exception. -/
def handle_error (success : Bool) (msg : Option String) (code : Int) :
    Except PyError Unit :=
  if success then .ok ()
  else
    let m := msg.getD "no message"
    if code = 1 ∨ code = 2 ∨ code = 4 then .error (.runtimeError m)
    else if code = 3 then .error (.memoryError m)
    else .error (.runtimeError "unknow error")

/-- Embedding of `Theory.__skip_error(ret, func, arguments)`: the raw return
value is handed back uninterpreted, never raising. -/
def skip_error {α : Type} (ret : α) : Except PyError α := .ok ret

/-- The three overlapping fields of the ctypes union `_c_value`, modelled by
the value each field read would produce: `integer` is the `c_int` reading,
`double` the `c_double` reading, `symbol` the `c_uint64` reading. -/
structure c_value where
  integer : Int
  double : Float
  symbol : Nat

/-- The ctypes structure `_c_variant`: a discriminant (`type`, a `c_int`)
plus the union payload. -/
structure c_variant where
  type : Int
  value : c_value

/-- The decoded result type `ValueType = Union[int, float, Symbol]`;
`symbolRef s` stands for `_Symbol(s)` built from the raw 64-bit payload. -/
inductive Value where
  | integer (i : Int)
  | double (d : Float)
  | symbolRef (s : Nat)

/-- Embedding of `Theory.get_value(thread_id, index)`.  The extension's
`assignment_get_value` fills the out-parameter union; it is modelled by the
oracle `ext_get_value` giving the filled `c_variant` for a thread id and
index.  The discriminant dispatch and the final
`raise RuntimeError("must not happen")` follow the source. -/
def get_value (ext_get_value : Nat → Nat → c_variant) (thread_id index : Nat) :
    Except PyError Value :=
  let v := ext_get_value thread_id index
  if v.type = 0 then .ok (.integer v.value.integer)
  else if v.type = 1 then .ok (.double v.value.double)
  else if v.type = 2 then .ok (.symbolRef v.value.symbol)
  else .error (.runtimeError "must not happen")

/-- The binding table established by `Theory.__init__`: each bound function
name together with the `error` flag passed to `Theory.__fun` (`true`, the
default, attaches `__handle_error` — the Strict policy; `false` attaches
`__skip_error` — the Pass-through policy).  Names and flags are listed in
source order. -/
def bindingPolicies : List (String × Bool) :=
  [ ("create", true)
  , ("destroy", true)
  , ("register", true)
  , ("rewrite_statement", true)
  , ("prepare", true)
  , ("register_options", true)
  , ("validate_options", true)
  , ("on_model", true)
  , ("on_statistics", true)
  , ("lookup_symbol", false)
  , ("get_symbol", false)
  , ("assignment_begin", false)
  , ("assignment_next", false)
  , ("assignment_has_value", false)
  , ("assignment_get_value", false)
  , ("configure", true)
  ]

/-- Embedding of `Theory.lookup_symbol(symbol)`.  The extension's
`lookup_symbol` is the oracle `ext_lookup`, giving for each symbol the bool
it returns and the index it writes to the `c_index` out-parameter.  The bound
function carries the Pass-through policy (`error=False` in `__init__`), so
its raw return passes through `__skip_error` before the wrapper inspects
it. -/
def lookup_symbol (ext_lookup : Nat → Bool × Nat) (symbol : Nat) :
    Except PyError (Option Nat) :=
  let found := (ext_lookup symbol).1
  let c_index := (ext_lookup symbol).2
  match skip_error found with
  | .error e => .error e
  | .ok f => if f then .ok (some c_index) else .ok none

/-- The environment the dynamic loader sees: whether `find_library` locates
the library, and the names the loaded library exports. -/
structure LibEnv where
  found : Bool
  symbols : List String

/-- Embedding of the export lookup `self.__theory["<pre>_<name>"]` performed
by `Theory.__fun`: ctypes raises `AttributeError` when the export is
absent. -/
def fun_bind (env : LibEnv) (pre name : String) : Except PyError Unit :=
  if (pre ++ "_" ++ name) ∈ env.symbols then .ok ()
  else .error (.attributeError (pre ++ "_" ++ name))

/-- Binding a sequence of required exports in source order, propagating the
first `AttributeError`. -/
def bindAll (env : LibEnv) (pre : String) : List String → Except PyError Unit
  | [] => .ok ()
  | n :: rest =>
    match fun_bind env pre n with
    | .error e => .error e
    | .ok _ => bindAll env pre rest

/-- The required exports bound by `Theory.__init__` before the optional
`rewrite_statement` binding. -/
def requiredHead : List String := ["create", "destroy", "register"]

/-- The required exports bound by `Theory.__init__` after the optional
`rewrite_statement` binding, in source order. -/
def requiredTail : List String :=
  ["prepare", "register_options", "validate_options", "on_model",
   "on_statistics", "lookup_symbol", "get_symbol", "assignment_begin",
   "assignment_next", "assignment_has_value", "assignment_get_value",
   "configure"]

/-- All fifteen required exports of the extension library. -/
def requiredNames : List String := requiredHead ++ requiredTail

/-- Whether the optional export binding
`self.__rewrite_statement = self.__fun(prefix, "rewrite_statement", ...)`
succeeds: the `except AttributeError` turns an absent export into
`self.__rewrite_statement = None`, modelled as `false`. -/
def rw_binding (env : LibEnv) (pre : String) : Bool :=
  match fun_bind env pre "rewrite_statement" with
  | .ok _ => true
  | .error _ => false

/-- Embedding of `Theory.__init__(prefix, lib)`.  The result triple is the
outcome of construction (`.ok` or the raised exception), the final value of
the `__c_theory` field of the partially- or fully-constructed object, and
whether the optional `__rewrite_statement` binding is enabled (`False`
models `self.__rewrite_statement = None`).  `create_ok` is the bool the
extension's `create` returns, `msg`/`code` the diagnostic channel, and
`new_handle` the handle `create` writes through its out-parameter. -/
def theory_init (env : LibEnv) (pre : String) (create_ok : Bool)
    (msg : Option String) (code : Int) (new_handle : Nat) :
    Except PyError Unit × Option Nat × Bool :=
  let c_theory : Option Nat := none
  if env.found = false then
    (.error (.runtimeError "could not find library"), c_theory, false)
  else
    match bindAll env pre requiredHead with
    | .error e => (.error e, c_theory, false)
    | .ok _ =>
      let rw_enabled := rw_binding env pre
      match bindAll env pre requiredTail with
      | .error e => (.error e, c_theory, rw_enabled)
      | .ok _ =>
        match handle_error create_ok msg code with
        | .error e => (.error e, c_theory, rw_enabled)
        | .ok _ => (.ok (), some new_handle, rw_enabled)

/-- Embedding of `Theory.__del__`: if `__c_theory` is not None, the
Strict-bound `destroy` is called on it — the bool it returns (oracle
`ext_destroy`) passes through `__handle_error` with the diagnostic
channel's `msg`/`code` — and only when that call returns normally does the
following statement `self.__c_theory = None` clear the field; when
`__handle_error` raises, the field keeps the live handle.  The result is
the outcome of the run, the new field value, and the list of handles
`destroy` was invoked on during this run. -/
def theory_del (ext_destroy : Nat → Bool) (msg : Option String) (code : Int)
    (c_theory : Option Nat) : Except PyError Unit × Option Nat × List Nat :=
  match c_theory with
  | some h =>
    match handle_error (ext_destroy h) msg code with
    | .error e => (.error e, some h, [h])
    | .ok _ => (.ok (), none, [h])
  | none => (.ok (), none, [])

/-- Handles the extension's `destroy` is invoked on over `n` successive runs
of `Theory.__del__` starting from the field value `c_theory`. -/
def theory_del_iter (ext_destroy : Nat → Bool) (msg : Option String)
    (code : Int) : Option Nat → Nat → List Nat
  | _, 0 => []
  | s, n + 1 =>
    (theory_del ext_destroy msg code s).2.2 ++
      theory_del_iter ext_destroy msg code
        (theory_del ext_destroy msg code s).2.1 n

/-- Embedding of the trampoline `py_add(stm, data)` defined inside
`Theory.rewrite_statement`: the host callback `add` (composed with the
`AST._from_c` conversion) either completes normally or raises; the bare
`except:` turns any exception into returning `False`, and a normal
completion returns `True`. -/
def py_add (add : Nat → Except PyError Unit) (stm : Nat) : Bool :=
  match add stm with
  | .ok _ => true
  | .error _ => false

/-- Embedding of `Theory.rewrite_statement(stm, add)`: the extension's
`rewrite_statement` function (oracle `ext_rw`) receives the trampoline and
the statement and returns a bool; the binding is Strict, so that return
passes through `__handle_error` with the diagnostic channel's
`msg`/`code`. -/
def rewrite_statement (ext_rw : (Nat → Bool) → Nat → Bool)
    (add : Nat → Except PyError Unit) (msg : Option String) (code : Int)
    (stm : Nat) : Except PyError Unit :=
  handle_error (ext_rw (py_add add) stm) msg code

/-- Embedding of the while-loop of `Theory.assignment(thread_id)`.  The
extension's successive `assignment_next` answers form the oracle list
`resp`: each entry is the bool a call returns paired with the value it
writes into the byref `c_index` out-parameter.  While the answer is true
the generator yields `(get_symbol(c_index), get_value(thread_id, c_index))`
— the decoders are the total oracles `gs` and `gv` — and the first false
answer ends the iteration. -/
def assignment {γ δ : Type} (gs : Nat → γ) (gv : Nat → δ) :
    List (Bool × Nat) → List (γ × δ)
  | [] => []
  | (b, idx) :: rest =>
    if b then (gs idx, gv idx) :: assignment gs gv rest else []

/-- The spec's description of the yielded sequence: one pair per true answer
of `assignment_next` before the first false answer, in that order, decoded
at the index the answering call wrote. -/
def specYield {γ δ : Type} (gs : Nat → γ) (gv : Nat → δ)
    (resp : List (Bool × Nat)) : List (γ × δ) :=
  ((resp.takeWhile fun r => r.1).map fun r => r.2).map fun i => (gs i, gv i)

/-- One call into the extension issued by the assignment iterator. -/
inductive ExtCall where
  | beginCall (thread_id : Nat)
  | nextCall (thread_id cur : Nat) (ret : Bool) (written : Nat)
  | getSymbolCall (index : Nat)
  | getValueCall (thread_id index : Nat)
  | hasValueCall (thread_id index : Nat)
  deriving Repr, DecidableEq

/-- Whether an extension call is an `assignment_has_value` call. -/
def ExtCall.isHasValue : ExtCall → Bool
  | .hasValueCall _ _ => true
  | _ => false

/-- Whether an extension call is an `assignment_get_value` call. -/
def ExtCall.isGetValue : ExtCall → Bool
  | .getValueCall _ _ => true
  | _ => false

/-- The extension calls issued by the while-loop of `Theory.assignment`,
starting with `c_index` holding `cur`: each iteration issues one
`assignment_next` call and, when it returns true, one `get_symbol` and one
`assignment_get_value` call at the index it wrote. -/
def assignmentLoopTrace (thread_id : Nat) :
    Nat → List (Bool × Nat) → List ExtCall
  | _, [] => []
  | cur, (b, idx) :: rest =>
    .nextCall thread_id cur b idx ::
      (if b then
        .getSymbolCall idx :: .getValueCall thread_id idx ::
          assignmentLoopTrace thread_id idx rest
      else [])

/-- The full trace of extension calls issued by `Theory.assignment`: one
`assignment_begin` call (which writes the starting index `start`), then the
loop. -/
def assignmentTrace (thread_id start : Nat) (resp : List (Bool × Nat)) :
    List ExtCall :=
  .beginCall thread_id :: assignmentLoopTrace thread_id start resp

end Tefoli

namespace Tefoli

/-- C1: on a Strict-bound operation whose native call returns false, the
error handler raises `RuntimeError` carrying the message for codes 1, 2, 4,
`MemoryError` carrying the message for code 3, and an unclassified
`RuntimeError` for any other code; a missing message is replaced by the
placeholder "no message". -/
theorem handle_error_code_mapping (msg : Option String) (code : Int) :
    ((code = 1 ∨ code = 2 ∨ code = 4) →
      handle_error false msg code = .error (.runtimeError (msg.getD "no message"))) ∧
    (code = 3 →
      handle_error false msg code = .error (.memoryError (msg.getD "no message"))) ∧
    (¬(code = 1 ∨ code = 2 ∨ code = 3 ∨ code = 4) →
      handle_error false msg code = .error (.runtimeError "unknow error")) := by
  refine ⟨?_, ?_, ?_⟩
  · intro h
    simp [handle_error, h]
  · intro h
    subst h
    simp [handle_error]
  · intro h
    push_neg at h
    obtain ⟨h1, h2, h3, h4⟩ := h
    simp [handle_error, h1, h2, h3, h4]

/-- Witness for C1 at concrete inputs: code 3 with no message raises
`MemoryError "no message"`, code 2 with message "boom" raises
`RuntimeError "boom"`, and code 7 raises the unclassified failure. -/
theorem handle_error_code_mapping_witness :
    handle_error false none 3 = .error (.memoryError "no message") ∧
    handle_error false (some "boom") 2 = .error (.runtimeError "boom") ∧
    handle_error false (some "boom") 7 = .error (.runtimeError "unknow error") :=
  ⟨(handle_error_code_mapping none 3).2.1 rfl,
   (handle_error_code_mapping (some "boom") 2).1 (Or.inr (Or.inl rfl)),
   (handle_error_code_mapping (some "boom") 7).2.2 (by decide)⟩

/-- C2: `get_value` returns the Integer payload for discriminant 0, the
Double payload for discriminant 1, a SymbolRef built from the 64-bit symbol
payload for discriminant 2, and raises an internal-consistency failure for
any other discriminant. -/
theorem get_value_decodes (ext : Nat → Nat → c_variant) (tid idx : Nat) :
    ((ext tid idx).type = 0 →
      get_value ext tid idx = .ok (.integer (ext tid idx).value.integer)) ∧
    ((ext tid idx).type = 1 →
      get_value ext tid idx = .ok (.double (ext tid idx).value.double)) ∧
    ((ext tid idx).type = 2 →
      get_value ext tid idx = .ok (.symbolRef (ext tid idx).value.symbol)) ∧
    (¬((ext tid idx).type = 0 ∨ (ext tid idx).type = 1 ∨ (ext tid idx).type = 2) →
      get_value ext tid idx = .error (.runtimeError "must not happen")) := by
  refine ⟨?_, ?_, ?_, ?_⟩
  · intro h
    simp [get_value, h]
  · intro h
    simp [get_value, h]
  · intro h
    simp [get_value, h]
  · intro h
    push_neg at h
    obtain ⟨h0, h1, h2⟩ := h
    simp [get_value, h0, h1, h2]

/-- Witness for C2 at concrete inputs: discriminant 0 with payload 42 yields
Integer 42, discriminant 1 with payload 3.5 yields Double 3.5, discriminant 2
with payload 77 yields SymbolRef 77, and discriminant 5 raises the
internal-consistency failure. -/
theorem get_value_decodes_witness :
    get_value (fun _ _ => ⟨0, 42, 3.5, 77⟩) 0 0 = .ok (.integer 42) ∧
    get_value (fun _ _ => ⟨1, 42, 3.5, 77⟩) 0 0 = .ok (.double 3.5) ∧
    get_value (fun _ _ => ⟨2, 42, 3.5, 77⟩) 0 0 = .ok (.symbolRef 77) ∧
    get_value (fun _ _ => ⟨5, 42, 3.5, 77⟩) 0 0 =
      .error (.runtimeError "must not happen") :=
  ⟨(get_value_decodes (fun _ _ => ⟨0, 42, 3.5, 77⟩) 0 0).1 rfl,
   (get_value_decodes (fun _ _ => ⟨1, 42, 3.5, 77⟩) 0 0).2.1 rfl,
   (get_value_decodes (fun _ _ => ⟨2, 42, 3.5, 77⟩) 0 0).2.2.1 rfl,
   (get_value_decodes (fun _ _ => ⟨5, 42, 3.5, 77⟩) 0 0).2.2.2 (by decide)⟩

/-- C3: every bound function carries one of two error-checking policies
fixed at bind time — the ten Strict operations carry the `__handle_error`
policy (flag `true`), which turns a false return into a raised failure,
while the six Pass-through operations carry the `__skip_error` policy
(flag `false`), which never raises and hands the raw return back
uninterpreted. -/
theorem binding_policies_spec :
    (∀ n ∈ ["create", "destroy", "register", "rewrite_statement", "prepare",
            "register_options", "validate_options", "on_model", "on_statistics",
            "configure"], (n, true) ∈ bindingPolicies) ∧
    (∀ n ∈ ["lookup_symbol", "get_symbol", "assignment_begin", "assignment_next",
            "assignment_has_value", "assignment_get_value"],
        (n, false) ∈ bindingPolicies) ∧
    (∀ msg code, ∃ e, handle_error false msg code = .error e) ∧
    (∀ ret : Bool, skip_error ret = .ok ret) := by
  refine ⟨by decide, by decide, ?_, fun _ => rfl⟩
  intro msg code
  unfold handle_error
  split
  · simp_all
  · split
    · exact ⟨_, rfl⟩
    · split
      · exact ⟨_, rfl⟩
      · exact ⟨_, rfl⟩

/-- Witness for C3 at concrete inputs: `configure` is Strict-bound,
`assignment_next` is Pass-through, a Strict false return raises, and
Pass-through hands back `true` unchanged. -/
theorem binding_policies_spec_witness :
    ("configure", true) ∈ bindingPolicies ∧
    ("assignment_next", false) ∈ bindingPolicies ∧
    (∃ e, handle_error false (some "m") 1 = .error e) ∧
    skip_error true = .ok true :=
  ⟨binding_policies_spec.1 "configure" (by decide),
   binding_policies_spec.2.1 "assignment_next" (by decide),
   binding_policies_spec.2.2.1 (some "m") 1,
   binding_policies_spec.2.2.2 true⟩

/-- C7: `lookup_symbol` returns the index written to the out-parameter when
the extension reports found (returns true) and returns None when it reports
not found; the not-found case is an ordinary result — the call never
raises. -/
theorem lookup_symbol_spec (ext : Nat → Bool × Nat) (symbol : Nat) :
    ((ext symbol).1 = true →
      lookup_symbol ext symbol = .ok (some (ext symbol).2)) ∧
    ((ext symbol).1 = false → lookup_symbol ext symbol = .ok none) ∧
    (∃ r, lookup_symbol ext symbol = .ok r) := by
  refine ⟨?_, ?_, ?_⟩
  · intro h
    simp [lookup_symbol, skip_error, h]
  · intro h
    simp [lookup_symbol, skip_error, h]
  · cases hf : (ext symbol).1 <;> simp [lookup_symbol, skip_error, hf]

/-- Witness for C7 at concrete inputs: an extension reporting found with
index 9 yields `some 9`; one reporting not found yields `none`. -/
theorem lookup_symbol_spec_witness :
    lookup_symbol (fun _ => (true, 9)) 5 = .ok (some 9) ∧
    lookup_symbol (fun _ => (false, 9)) 5 = .ok none :=
  ⟨(lookup_symbol_spec (fun _ => (true, 9)) 5).1 rfl,
   (lookup_symbol_spec (fun _ => (false, 9)) 5).2.1 rfl⟩

end Tefoli

namespace Tefoli

/-- C8: the trampoline returns true when the host callback completes
normally and false when it raises; the host-side exception never propagates
through the extension's success path (a true return from the extension
yields a normal result), and a failure signalled by the extension's
`rewrite_statement` surfaces through the Strict error translator as a
`RuntimeError` carrying the diagnostic message. -/
theorem rewrite_trampoline_spec (ext_rw : (Nat → Bool) → Nat → Bool)
    (add : Nat → Except PyError Unit) (msg : Option String) (code : Int)
    (stm : Nat) :
    (add stm = .ok () → py_add add stm = true) ∧
    (∀ e, add stm = .error e → py_add add stm = false) ∧
    (ext_rw (py_add add) stm = true →
      rewrite_statement ext_rw add msg code stm = .ok ()) ∧
    (ext_rw (py_add add) stm = false → (code = 1 ∨ code = 2 ∨ code = 4) →
      rewrite_statement ext_rw add msg code stm =
        .error (.runtimeError (msg.getD "no message"))) := by
  refine ⟨?_, ?_, ?_, ?_⟩
  · intro h
    simp [py_add, h]
  · intro e h
    simp [py_add, h]
  · intro h
    simp [rewrite_statement, h, handle_error]
  · intro h hc
    simp [rewrite_statement, h, handle_error, hc]

/-- Witness for C8 at concrete inputs: a callback that raises makes the
trampoline return false, a callback that completes makes it return true,
and an extension that reports failure with code 1 and message "rw failed"
makes `rewrite_statement` raise `RuntimeError "rw failed"`. -/
theorem rewrite_trampoline_spec_witness :
    py_add (fun _ => .error (.runtimeError "host boom")) 4 = false ∧
    py_add (fun _ => .ok ()) 4 = true ∧
    rewrite_statement (fun _ _ => false) (fun _ => .error (.runtimeError "host boom"))
      (some "rw failed") 1 4 = .error (.runtimeError "rw failed") :=
  ⟨(rewrite_trampoline_spec (fun _ _ => false)
      (fun _ => .error (.runtimeError "host boom")) (some "rw failed") 1 4).2.1
      (.runtimeError "host boom") rfl,
   (rewrite_trampoline_spec (fun _ _ => false) (fun _ => .ok ())
      (some "rw failed") 1 4).1 rfl,
   (rewrite_trampoline_spec (fun _ _ => false)
      (fun _ => .error (.runtimeError "host boom")) (some "rw failed") 1 4).2.2.2
      rfl (Or.inl rfl)⟩

/-- Running `__del__` on an already-cleared field performs no destroy
call, however often it is repeated. -/
theorem theory_del_iter_none (ext_destroy : Nat → Bool) (msg : Option String)
    (code : Int) (n : Nat) :
    theory_del_iter ext_destroy msg code none n = [] := by
  induction n with
  | zero => rfl
  | succ n ih => simp [theory_del_iter, theory_del, ih]

/-- Counterexample to C9 as stated: when the extension's `destroy` reports
failure (here with diagnostic code 1), `__handle_error` raises before
`self.__c_theory = None` executes, the handle field stays set, and two
successive destructor runs invoke `destroy` twice on the same live
handle 7. -/
theorem theory_del_double_destroy :
    theory_del_iter (fun _ => false) (some "m") 1 (some 7) 2 = [7, 7] ∧
    (theory_del (fun _ => false) (some "m") 1 (some 7)).2.1 = some 7 := by
  decide

/-- C9 amended: teardown is idempotent provided the extension's `destroy`
reports success — the destructor then clears the field, so across any
number of runs `destroy` is invoked at most once and the run after a first
one is a no-op; a run on a never-created handle is likewise a no-op.  When
`destroy` reports failure, the Strict error handler raises before the
field is cleared, so the handle stays set. -/
theorem theory_del_success_idempotent (ext_destroy : Nat → Bool)
    (msg : Option String) (code : Int) (c_theory : Option Nat) (n : Nat) :
    ((∀ h, c_theory = some h → ext_destroy h = true) →
      (theory_del_iter ext_destroy msg code c_theory n).length ≤ 1 ∧
      theory_del ext_destroy msg code
          (theory_del ext_destroy msg code c_theory).2.1 =
        (.ok (), none, [])) ∧
    theory_del ext_destroy msg code none = (.ok (), none, []) ∧
    (∀ h, c_theory = some h → ext_destroy h = false →
      (code = 1 ∨ code = 2 ∨ code = 4) →
      (theory_del ext_destroy msg code c_theory).2.1 = some h) := by
  refine ⟨?_, rfl, ?_⟩
  · intro hsucc
    cases c_theory with
    | none =>
      exact ⟨by simp [theory_del_iter_none], rfl⟩
    | some h =>
      have hd : ext_destroy h = true := hsucc h rfl
      have hdel : theory_del ext_destroy msg code (some h) =
          (.ok (), none, [h]) := by
        simp [theory_del, hd, handle_error]
      constructor
      · cases n with
        | zero => simp [theory_del_iter]
        | succ n => simp [theory_del_iter, hdel, theory_del_iter_none]
      · rw [hdel]
        rfl
  · intro h hsome hfail hc
    subst hsome
    have he : handle_error (ext_destroy h) msg code =
        .error (.runtimeError (msg.getD "no message")) := by
      rw [hfail]
      simp [handle_error, hc]
    simp [theory_del, he]

/-- Witness for the amended C9 at concrete inputs: with a succeeding
`destroy`, two destructor runs starting from live handle 7 invoke `destroy`
at most once and the second run is a no-op; with a failing `destroy` and
code 1, the handle field keeps handle 9. -/
theorem theory_del_success_idempotent_witness :
    ((theory_del_iter (fun _ => true) none 0 (some 7) 2).length ≤ 1 ∧
      theory_del (fun _ => true) none 0
          (theory_del (fun _ => true) none 0 (some 7)).2.1 =
        (.ok (), none, [])) ∧
    (theory_del (fun _ => false) (some "m") 1 (some 9)).2.1 = some 9 :=
  ⟨(theory_del_success_idempotent (fun _ => true) none 0 (some 7) 2).1
      (fun _ _ => rfl),
   (theory_del_success_idempotent (fun _ => false) (some "m") 1 (some 9) 0).2.2
      9 rfl rfl (Or.inl rfl)⟩

end Tefoli

namespace Tefoli

/-- The error translator succeeds exactly when the native call returned
true. -/
theorem handle_error_ok_iff (success : Bool) (msg : Option String) (code : Int) :
    handle_error success msg code = .ok () ↔ success = true := by
  cases success with
  | true => simp [handle_error]
  | false =>
    simp only [Bool.false_eq_true, iff_false]
    unfold handle_error
    simp only [Bool.false_eq_true, if_false]
    split
    · simp
    · split
      · simp
      · simp

/-- Binding a list of exports succeeds exactly when every export is
present. -/
theorem bindAll_ok_iff (env : LibEnv) (pre : String) (names : List String) :
    bindAll env pre names = .ok () ↔
      ∀ n ∈ names, (pre ++ "_" ++ n) ∈ env.symbols := by
  induction names with
  | nil => simp [bindAll]
  | cons hd tl ih =>
    by_cases hmem : (pre ++ "_" ++ hd) ∈ env.symbols
    · simp [bindAll, fun_bind, hmem, ih]
    · simp [bindAll, fun_bind, hmem]

/-- Construction either succeeds, storing the freshly created handle, or
raises, leaving the `__c_theory` field at its initial `None`. -/
theorem theory_init_cases (env : LibEnv) (pre : String) (create_ok : Bool)
    (msg : Option String) (code : Int) (new_handle : Nat) :
    ((theory_init env pre create_ok msg code new_handle).1 = .ok () ∧
      (theory_init env pre create_ok msg code new_handle).2.1 = some new_handle) ∨
    ((∃ e, (theory_init env pre create_ok msg code new_handle).1 = .error e) ∧
      (theory_init env pre create_ok msg code new_handle).2.1 = none) := by
  unfold theory_init
  split
  · exact .inr ⟨⟨_, rfl⟩, rfl⟩
  · split
    · exact .inr ⟨⟨_, rfl⟩, rfl⟩
    · split
      · exact .inr ⟨⟨_, rfl⟩, rfl⟩
      · split
        · exact .inr ⟨⟨_, rfl⟩, rfl⟩
        · exact .inl ⟨rfl, rfl⟩

/-- Construction succeeds exactly when the library is found, every required
export is present, and the extension's `create` returns true. -/
theorem theory_init_ok_iff (env : LibEnv) (pre : String) (create_ok : Bool)
    (msg : Option String) (code : Int) (new_handle : Nat) :
    (theory_init env pre create_ok msg code new_handle).1 = .ok () ↔
      (env.found = true ∧ (∀ n ∈ requiredNames, (pre ++ "_" ++ n) ∈ env.symbols) ∧
        create_ok = true) := by
  have hsplit : (∀ n ∈ requiredNames, (pre ++ "_" ++ n) ∈ env.symbols) ↔
      ((∀ n ∈ requiredHead, (pre ++ "_" ++ n) ∈ env.symbols) ∧
       (∀ n ∈ requiredTail, (pre ++ "_" ++ n) ∈ env.symbols)) := by
    unfold requiredNames
    constructor
    · intro h
      exact ⟨fun n hn => h n (List.mem_append_left _ hn),
             fun n hn => h n (List.mem_append_right _ hn)⟩
    · intro h n hn
      rcases List.mem_append.1 hn with h1 | h2
      · exact h.1 n h1
      · exact h.2 n h2
  rw [hsplit]
  unfold theory_init
  cases hf : env.found with
  | false => simp [hf]
  | true =>
    rcases hb1 : bindAll env pre requiredHead with e1 | u1
    · have h1 : ¬ ∀ n ∈ requiredHead, (pre ++ "_" ++ n) ∈ env.symbols := by
        intro hall
        rw [(bindAll_ok_iff env pre requiredHead).2 hall] at hb1
        cases hb1
      simp [hf, hb1, h1]
    · cases u1
      have h1 : ∀ n ∈ requiredHead, (pre ++ "_" ++ n) ∈ env.symbols :=
        (bindAll_ok_iff env pre requiredHead).1 hb1
      rcases hb2 : bindAll env pre requiredTail with e2 | u2
      · have h2 : ¬ ∀ n ∈ requiredTail, (pre ++ "_" ++ n) ∈ env.symbols := by
          intro hall
          rw [(bindAll_ok_iff env pre requiredTail).2 hall] at hb2
          cases hb2
        simp [hf, hb1, hb2, h2]
      · cases u2
        have h2 : ∀ n ∈ requiredTail, (pre ++ "_" ++ n) ∈ env.symbols :=
          (bindAll_ok_iff env pre requiredTail).1 hb2
        rcases hc : handle_error create_ok msg code with e3 | u3
        · have h3 : ¬ create_ok = true := by
            intro hok
            rw [hok] at hc
            rw [(handle_error_ok_iff true msg code).2 rfl] at hc
            cases hc
          simp [hf, hb1, hb2, hc, h3]
        · cases u3
          have h3 : create_ok = true := (handle_error_ok_iff create_ok msg code).1 hc
          simp [hf, hb1, hb2, hc, h3, iff_true_intro h1, iff_true_intro h2]

end Tefoli

namespace Tefoli

/-- C4: construction fails when the library cannot be located or when any
required export `<pre>_<name>` is absent; the optional `rewrite_statement`
export is the exception — with every required export present and `create`
succeeding, its absence leaves construction successful but the bridge
operation disabled (`__rewrite_statement = None`). -/
theorem theory_init_failure_modes (env : LibEnv) (pre : String)
    (create_ok : Bool) (msg : Option String) (code : Int) (new_handle : Nat) :
    (env.found = false →
      (theory_init env pre create_ok msg code new_handle).1 =
        .error (.runtimeError "could not find library")) ∧
    (∀ n ∈ requiredNames, (pre ++ "_" ++ n) ∉ env.symbols →
      ∃ e, (theory_init env pre create_ok msg code new_handle).1 = .error e) ∧
    (env.found = true →
      (∀ n ∈ requiredNames, (pre ++ "_" ++ n) ∈ env.symbols) →
      create_ok = true →
      (pre ++ "_" ++ "rewrite_statement") ∉ env.symbols →
      (theory_init env pre create_ok msg code new_handle).1 = .ok () ∧
      (theory_init env pre create_ok msg code new_handle).2.2 = false) := by
  refine ⟨?_, ?_, ?_⟩
  · intro h
    unfold theory_init
    simp [h]
  · intro n hn hmiss
    rcases theory_init_cases env pre create_ok msg code new_handle with
      ⟨hok, _⟩ | ⟨he, _⟩
    · exact (hmiss (((theory_init_ok_iff env pre create_ok msg code
        new_handle).1 hok).2.1 n hn)).elim
    · exact he
  · intro hf hall hok hmiss
    have hb1 : bindAll env pre requiredHead = .ok () :=
      (bindAll_ok_iff env pre requiredHead).2
        (fun n hn => hall n (List.mem_append_left _ hn))
    have hb2 : bindAll env pre requiredTail = .ok () :=
      (bindAll_ok_iff env pre requiredTail).2
        (fun n hn => hall n (List.mem_append_right _ hn))
    have hcr : handle_error create_ok msg code = .ok () :=
      (handle_error_ok_iff create_ok msg code).2 hok
    have hrw : rw_binding env pre = false := by
      simp [rw_binding, fun_bind, hmiss]
    unfold theory_init
    constructor <;> simp [hf, hb1, hb2, hcr, hrw]

/-- Witness for C4 at concrete inputs: with the library missing,
construction raises; with the library found but no exports, construction
raises; with every required export present but `p_rewrite_statement`
absent, construction succeeds with the rewrite feature disabled. -/
theorem theory_init_failure_modes_witness :
    (theory_init ⟨false, []⟩ "p" true none 0 5).1 =
      .error (.runtimeError "could not find library") ∧
    (∃ e, (theory_init ⟨true, []⟩ "p" true none 0 5).1 = .error e) ∧
    ((theory_init ⟨true, requiredNames.map (fun n => "p" ++ "_" ++ n)⟩
        "p" true none 0 5).1 = .ok () ∧
      (theory_init ⟨true, requiredNames.map (fun n => "p" ++ "_" ++ n)⟩
        "p" true none 0 5).2.2 = false) :=
  ⟨(theory_init_failure_modes ⟨false, []⟩ "p" true none 0 5).1 rfl,
   (theory_init_failure_modes ⟨true, []⟩ "p" true none 0 5).2.1 "create"
     (by decide) (by decide),
   (theory_init_failure_modes ⟨true, requiredNames.map (fun n => "p" ++ "_" ++ n)⟩
     "p" true none 0 5).2.2 rfl (by decide) rfl (by decide)⟩

/-- C10: whenever construction aborts — library not found, a required
export missing, or the extension's `create` reporting failure — the
`__c_theory` field keeps its initial `None`, so a subsequent run of
`__del__` performs no destroy call. -/
theorem theory_init_abort_handle_unset (env : LibEnv) (pre : String)
    (create_ok : Bool) (msg : Option String) (code : Int) (new_handle : Nat)
    (ext_destroy : Nat → Bool) :
    (∀ e, (theory_init env pre create_ok msg code new_handle).1 = .error e →
      (theory_init env pre create_ok msg code new_handle).2.1 = none) ∧
    theory_del ext_destroy msg code none = (.ok (), none, []) := by
  refine ⟨?_, rfl⟩
  intro e he
  rcases theory_init_cases env pre create_ok msg code new_handle with
    ⟨hok, _⟩ | ⟨_, hnone⟩
  · rw [hok] at he
    cases he
  · exact hnone

/-- Witness for C10 at a concrete input: `create` reports failure with
code 1, construction raises, and the handle field stays `None`. -/
theorem theory_init_abort_handle_unset_witness :
    (theory_init ⟨true, requiredNames.map (fun n => "p" ++ "_" ++ n)⟩
      "p" false (some "create failed") 1 5).2.1 = none :=
  (theory_init_abort_handle_unset
    ⟨true, requiredNames.map (fun n => "p" ++ "_" ++ n)⟩
    "p" false (some "create failed") 1 5 (fun _ => true)).1
    (.runtimeError "create failed") rfl

end Tefoli

namespace Tefoli

/-- C5: the sequence yielded by the assignment iterator is exactly one
`(get_symbol(index), get_value(thread_id, index))` pair per true answer of
`assignment_next` before its first false answer, in that order, each decoded
at the index the answering call wrote; in particular its length is the
number of leading true answers. -/
theorem assignment_one_pair_per_true {γ δ : Type} (gs : Nat → γ) (gv : Nat → δ)
    (resp : List (Bool × Nat)) :
    assignment gs gv resp = specYield gs gv resp ∧
    (assignment gs gv resp).length =
      (resp.takeWhile fun r => r.1).length := by
  have h : assignment gs gv resp = specYield gs gv resp := by
    induction resp with
    | nil => rfl
    | cons hd tl ih =>
      obtain ⟨b, idx⟩ := hd
      cases b with
      | false => simp [assignment, specYield, List.takeWhile_cons]
      | true =>
        simp only [assignment, specYield, List.takeWhile_cons] at ih ⊢
        simp [ih]
  refine ⟨h, ?_⟩
  rw [h]
  simp [specYield]

/-- No call issued by the assignment loop is an `assignment_has_value`
call. -/
theorem assignmentLoopTrace_no_has_value (tid : Nat)
    (resp : List (Bool × Nat)) :
    ∀ cur, ∀ c ∈ assignmentLoopTrace tid cur resp, c.isHasValue = false := by
  induction resp with
  | nil =>
    intro cur c hc
    simp [assignmentLoopTrace] at hc
  | cons hd tl ih =>
    obtain ⟨b, idx⟩ := hd
    intro cur c hc
    cases b with
    | false =>
      simp [assignmentLoopTrace] at hc
      subst hc
      rfl
    | true =>
      simp [assignmentLoopTrace] at hc
      rcases hc with h | h | h | h
      · subst h; rfl
      · subst h; rfl
      · subst h; rfl
      · exact ih idx c h

/-- Every `assignment_get_value` call issued by the assignment loop is
preceded in the trace by an `assignment_next` call that returned true and
wrote the same index. -/
theorem assignmentLoopTrace_next_precedes (tid : Nat)
    (resp : List (Bool × Nat)) :
    ∀ cur j idx, (assignmentLoopTrace tid cur resp).get? j =
        some (.getValueCall tid idx) →
      ∃ i, i < j ∧ ∃ c, (assignmentLoopTrace tid cur resp).get? i =
        some (.nextCall tid c true idx) := by
  induction resp with
  | nil =>
    intro cur j idx h
    simp [assignmentLoopTrace] at h
  | cons hd tl ih =>
    obtain ⟨b, w⟩ := hd
    intro cur j idx h
    cases b with
    | false =>
      cases j with
      | zero => simp [assignmentLoopTrace] at h
      | succ j => simp [assignmentLoopTrace] at h
    | true =>
      match j with
      | 0 => simp [assignmentLoopTrace] at h
      | 1 => simp [assignmentLoopTrace] at h
      | 2 =>
        simp [assignmentLoopTrace] at h
        refine ⟨0, by omega, cur, ?_⟩
        simp [assignmentLoopTrace, h]
      | j + 3 =>
        have h3 : (assignmentLoopTrace tid w tl).get? j =
            some (.getValueCall tid idx) := by
          simpa [assignmentLoopTrace] using h
        obtain ⟨i, hi, c, hc⟩ := ih w j idx h3
        refine ⟨i + 3, by omega, c, ?_⟩
        simpa [assignmentLoopTrace] using hc

/-- Counterexample to C6 as stated: at thread id 0, starting index 0, with
the extension answering true (writing index 1) and then false, the iterator
issues an `assignment_get_value` call but not a single
`assignment_has_value` call, so no `has_value` check precedes `get_value`. -/
theorem assignment_trace_skips_has_value :
    assignmentTrace 0 0 [(true, 1), (false, 0)] =
      [.beginCall 0, .nextCall 0 0 true 1, .getSymbolCall 1,
       .getValueCall 0 1, .nextCall 0 1 false 0] ∧
    ((assignmentTrace 0 0 [(true, 1), (false, 0)]).filter
        ExtCall.isGetValue).length = 1 ∧
    ((assignmentTrace 0 0 [(true, 1), (false, 0)]).filter
        ExtCall.isHasValue).length = 0 := by
  decide

/-- C6 amended: the iterator issues no `assignment_has_value` call at all;
what the call sequence establishes before each `assignment_get_value` on an
index is an `assignment_next` call that returned true and wrote that very
index. -/
theorem assignment_trace_next_precedes_get_value (tid start : Nat)
    (resp : List (Bool × Nat)) :
    (∀ c ∈ assignmentTrace tid start resp, c.isHasValue = false) ∧
    (∀ j idx, (assignmentTrace tid start resp).get? j =
        some (.getValueCall tid idx) →
      ∃ i, i < j ∧ ∃ cur,
        (assignmentTrace tid start resp).get? i =
          some (.nextCall tid cur true idx)) := by
  constructor
  · intro c hc
    rcases List.mem_cons.1 hc with h | h
    · subst h; rfl
    · exact assignmentLoopTrace_no_has_value tid resp start c h
  · intro j idx h
    cases j with
    | zero => simp [assignmentTrace] at h
    | succ j =>
      have h' : (assignmentLoopTrace tid start resp).get? j =
          some (.getValueCall tid idx) := by
        simpa [assignmentTrace] using h
      obtain ⟨i, hi, c, hc⟩ :=
        assignmentLoopTrace_next_precedes tid resp start j idx h'
      refine ⟨i + 1, by omega, c, ?_⟩
      simpa [assignmentTrace] using hc

/-- Witness for the amended C6 at a concrete input: in the trace for the
two-answer extension, the `get_value` call at position 3 is preceded by a
true-returning `next` call on index 1, and the second trace element is not
a `has_value` call. -/
theorem assignment_trace_next_precedes_get_value_witness :
    (∃ i, i < 3 ∧ ∃ cur,
      (assignmentTrace 0 0 [(true, 1), (false, 0)]).get? i =
        some (.nextCall 0 cur true 1)) ∧
    ExtCall.isHasValue (.nextCall 0 0 true 1) = false :=
  ⟨(assignment_trace_next_precedes_get_value 0 0 [(true, 1), (false, 0)]).2
      3 1 rfl,
   (assignment_trace_next_precedes_get_value 0 0 [(true, 1), (false, 0)]).1
      (.nextCall 0 0 true 1) (by decide)⟩

end Tefoli
